import Mathlib

/-!
Shallow embedding of the drift-detection subsystem of cloudguard-watch.

The embedding follows the backend source:
- the drift route module (`triggerDriftHandler`, `listStacksHandler`,
  `processDriftDetectionJobs`, `getUserAwsCredentials`) in
  src/unnamed/part_010 (routes/driftDetection.ts),
- the CloudFormation helper module (`listCloudFormationStacks`,
  `getDriftDetectionStatus`, `getStackResourceDrifts`) in src/unnamed/part_015
  (lib/cloudformationHelpers.ts),
- the Prisma schema (src/backend/prisma/schema.prisma) for the shapes and
  unique constraints of `AwsAccount`, `CloudFormationStack`,
  `StackDriftResult` and `DriftDetectionJob`.

The database is modelled as explicit lists of rows inside a `Store`; Prisma
calls become pure list operations mirroring the exact `where` conditions of
the source.  Remote AWS calls are modelled by an environment (`JobRemote`)
giving, per remote operation id, the outcome of each call the code makes; a
thrown JS exception is an `Except.error` carrying the message.  Timestamps
are milliseconds since the epoch as `Nat` (JS `Date.now()`).  Synthetic
`cuid()` primary keys are modelled as `Nat` identifiers supplied by the
environment; unread JSON blob columns (`description`, `tags`, `outputs`,
`parameters` of a stack row, and the JSON property blobs of a drift result
row) are carried as opaque strings or omitted where no code under
verification ever reads them.
-/

namespace CloudGuard

/-- Job status strings: DETECTION_IN_PROGRESS, DETECTION_COMPLETE,
DETECTION_FAILED (schema.prisma, model DriftDetectionJob). -/
inductive JobStatus
  | detectionInProgress
  | detectionComplete
  | detectionFailed
deriving DecidableEq

/-- Stack drift status strings: IN_SYNC, DRIFTED, NOT_CHECKED, UNKNOWN, plus
DETECTION_IN_PROGRESS written by the trigger handler
(schema.prisma, model CloudFormationStack, field driftStatus). -/
inductive StackDriftStatus
  | inSync
  | drifted
  | notChecked
  | unknownStatus
  | detectionInProgress
deriving DecidableEq

/-- Per-resource drift status strings: IN_SYNC, MODIFIED, DELETED,
NOT_CHECKED (schema.prisma, model StackDriftResult). -/
inductive ResourceDriftStatus
  | inSync
  | modified
  | deleted
  | notChecked
deriving DecidableEq

/-- Row of the aws_accounts table (schema.prisma, model AwsAccount).
`createdAt` is a millisecond timestamp. -/
structure AwsAccount where
  id : Nat
  userId : String
  accountId : String
  roleArn : String
  externalId : String
  region : Option String
  status : String
  createdAt : Nat
deriving DecidableEq

/-- Row of the drift_detection_jobs table (schema.prisma,
model DriftDetectionJob).  `driftDetectionId` is the remote operation id and
carries a unique constraint. -/
structure DriftDetectionJob where
  id : Nat
  awsAccountId : String
  stackName : String
  region : String
  driftDetectionId : String
  status : JobStatus
  failureReason : Option String
  startedAt : Nat
  completedAt : Option Nat
deriving DecidableEq

/-- Row of the cloudformation_stacks table (schema.prisma,
model CloudFormationStack), restricted to the columns the drift subsystem
reads or writes.  Unique per (awsAccountId, stackName, region). -/
structure CloudFormationStack where
  id : Nat
  awsAccountId : String
  stackName : String
  region : String
  status : String
  driftStatus : Option StackDriftStatus
  driftDetectionId : Option String
  detectionTime : Option Nat
deriving DecidableEq

/-- Row of the stack_drift_results table (schema.prisma,
model StackDriftResult).  Unique per (stackId, resourceLogicalId); the
synthetic cuid primary key is never read by the code and is omitted.  The
three JSON columns are carried as opaque strings. -/
structure StackDriftResult where
  stackId : Nat
  resourceLogicalId : String
  resourceType : String
  resourcePhysicalId : Option String
  driftStatus : ResourceDriftStatus
  actualProperties : String
  expectedProperties : String
  propertyDifferences : String
deriving DecidableEq

/-- The database: one list of rows per table touched by the drift code. -/
structure Store where
  accounts : List AwsAccount
  cloudFormationStacks : List CloudFormationStack
  jobs : List DriftDetectionJob
  driftResults : List StackDriftResult
deriving DecidableEq

/-- 24 hours in milliseconds, the retention window of the tick scan
(part_010 line 318). -/
def dayMs : Nat := 24 * 60 * 60 * 1000

/-- Default region literal used by `credentials.region || 'us-east-1'`. -/
def usEast1 : String := "us-east-1"

/-- Account status literal the code filters on. -/
def connectedStatus : String := "connected"

/-- `primaryAccount.region || 'us-east-1'` (part_010 line 77). -/
def credentialsRegion (a : AwsAccount) : String := a.region.getD usEast1

/-- Insert an account into a list sorted by `createdAt` descending; helper
for the Prisma `orderBy: createdAt desc` of `getUserAwsCredentials`
(part_010 lines 53-61). -/
def insertByCreatedAtDesc (a : AwsAccount) : List AwsAccount → List AwsAccount
  | [] => [a]
  | b :: bs =>
    if b.createdAt ≤ a.createdAt then a :: b :: bs
    else b :: insertByCreatedAtDesc a bs

/-- Sort accounts by `createdAt` descending (Prisma `orderBy createdAt
desc`). -/
def sortByCreatedAtDesc : List AwsAccount → List AwsAccount
  | [] => []
  | a :: as => insertByCreatedAtDesc a (sortByCreatedAtDesc as)

/-- The `findMany` of `getUserAwsCredentials`: the user's connected accounts
ordered by `createdAt` descending (part_010 lines 53-61). -/
def connectedAccountsDesc (s : Store) (userId : String) : List AwsAccount :=
  sortByCreatedAtDesc
    (s.accounts.filter (fun a => a.userId == userId && a.status == connectedStatus))

/-- `getUserAwsCredentials` (part_010 lines 48-81): pick the first (most
recently created) connected account of the user; `none` models the thrown
404 ApiError when the user has no connected account.  The subsequent
`assumeRole` remote call and the credential record itself are environment
effects; the only datum of the result the drift code reads besides the
account row is `credentialsRegion`. -/
def getUserAwsCredentials (s : Store) (userId : String) : Option AwsAccount :=
  (connectedAccountsDesc s userId).head?

/-- The DriftDetectionJob row `triggerDriftHandler` creates (part_010 lines
235-243): DETECTION_IN_PROGRESS, no failure reason, `startedAt` defaulted to
the current time by the schema, `completedAt` null. -/
def newDriftJob (acct : AwsAccount) (stackName : String) (jobId : Nat)
    (driftDetectionId : String) (now : Nat) : DriftDetectionJob :=
  { id := jobId
    awsAccountId := acct.accountId
    stackName := stackName
    region := credentialsRegion acct
    driftDetectionId := driftDetectionId
    status := .detectionInProgress
    failureReason := none
    startedAt := now
    completedAt := none }

/-- `triggerDriftHandler` (part_010 lines 192-308), restricted to its store
effect on the success path.  Inputs from the environment: the caller's
`userId` (authenticated Clerk user), the request body's `stackName`
(`triggerDriftSchema` admits only this one field, a non-empty string), the
fresh cuid `jobId` for the new row, the remote operation id
`driftDetectionId` returned by `triggerStackDriftDetection`, and the clock
`now`.  `none` models any thrown error: empty stack name (zod validation),
no connected account (404), or the unique-constraint violation of
`driftDetectionId` on `driftDetectionJob.create`.  On success the handler
creates the job row with status DETECTION_IN_PROGRESS (lines 235-243) and
then updates every stack row of the (accountId, stackName, region) tuple to
DETECTION_IN_PROGRESS (lines 246-257). -/
def triggerDrift (s : Store) (userId stackName : String) (jobId : Nat)
    (driftDetectionId : String) (now : Nat) : Option Store :=
  if stackName.isEmpty then none
  else
    match getUserAwsCredentials s userId with
    | none => none
    | some acct =>
      let region := credentialsRegion acct
      if s.jobs.any (fun j => j.driftDetectionId == driftDetectionId) then none
      else
        some { s with
          jobs := s.jobs ++ [newDriftJob acct stackName jobId driftDetectionId now]
          cloudFormationStacks := s.cloudFormationStacks.map (fun st =>
            if st.awsAccountId == acct.accountId && st.stackName == stackName
                && st.region == region then
              { st with
                driftDetectionId := some driftDetectionId
                driftStatus := some .detectionInProgress
                detectionTime := some now }
            else st) }

/-- Result record of `getDriftDetectionStatus` (part_015, interface
DriftDetectionResult): the remote detection status, the optional stack drift
status, the optional failure reason.  The `timestamp` field is never read by
the orchestrator and is omitted. -/
structure DriftDetectionResult where
  status : JobStatus
  driftStatus : Option StackDriftStatus
  failureReason : Option String
deriving DecidableEq

/-- Remote resource drift descriptor (part_015, interface
StackResourceDriftInfo), one element of the `getStackResourceDrifts`
result.  The JSON property blobs are carried as opaque strings. -/
structure StackResourceDriftInfo where
  logicalResourceId : String
  resourceType : String
  physicalResourceId : Option String
  driftStatus : ResourceDriftStatus
  actualProperties : Option String
  expectedProperties : Option String
  propertyDifferences : Option String
deriving DecidableEq

/-- Outcome of the three remote calls a tick makes for one job, keyed by the
job's remote operation id.  An `Except.error` is a thrown JS exception
carrying the error message (`assumeRole`, `getDriftDetectionStatus` and
`getStackResourceDrifts` each wrap failures in a thrown ApiError). -/
structure JobRemote where
  assumeRole : Except String Unit
  detectionStatus : Except String DriftDetectionResult
  resourceDrifts : Except String (List StackResourceDriftInfo)

/-- Opaque JSON texts for the `|| \x7b\x7d` and `|| []` defaults the
reconciler writes when a descriptor carries no properties. -/
def emptyJsonObject : String := "\x7b\x7d"

/-- Opaque JSON text for the `|| []` default of propertyDifferences. -/
def emptyJsonArray : String := "[]"

/-- `prisma.driftDetectionJob.update where id` (a single-row update keyed by
the primary key). -/
def updateJob (jobs : List DriftDetectionJob) (jobId : Nat)
    (f : DriftDetectionJob → DriftDetectionJob) : List DriftDetectionJob :=
  jobs.map (fun j => if j.id == jobId then f j else j)

/-- The failureReason literal of part_010 line 339. -/
def accountDisconnectedReason : String := "AWS account not found or disconnected"

/-- Mark a job DETECTION_FAILED with a reason and completedAt timestamp, the
update shape of part_010 lines 335-342 and 426-433. -/
def markJobFailed (s : Store) (jobId : Nat) (reason : String) (now : Nat) : Store :=
  { s with jobs := updateJob s.jobs jobId (fun j =>
      { j with
        status := .detectionFailed
        failureReason := some reason
        completedAt := some now }) }

/-- `prisma.awsAccount.findFirst where accountId, status connected`
(part_010 lines 326-331). -/
def findConnectedAccount (accounts : List AwsAccount) (awsAccountId : String) :
    Option AwsAccount :=
  accounts.find? (fun a => a.accountId == awsAccountId && a.status == connectedStatus)

/-- `prisma.cloudFormationStack.findFirst` by the (awsAccountId, stackName,
region) tuple (part_010 lines 387-393). -/
def findStackByTuple (rows : List CloudFormationStack)
    (awsAccountId stackName region : String) : Option CloudFormationStack :=
  rows.find? (fun st =>
    st.awsAccountId == awsAccountId && st.stackName == stackName && st.region == region)

/-- `prisma.cloudFormationStack.updateMany` by the tuple (part_010 lines
246-257 and 369-379). -/
def updateStacksForTuple (rows : List CloudFormationStack)
    (awsAccountId stackName region : String)
    (f : CloudFormationStack → CloudFormationStack) : List CloudFormationStack :=
  rows.map (fun st =>
    if st.awsAccountId == awsAccountId && st.stackName == stackName
        && st.region == region then f st else st)

/-- The StackDriftResult row created from one remote descriptor (part_010
lines 403-414), with the `|| \x7b\x7d` / `|| []` defaults. -/
def driftResultRow (stackId : Nat) (d : StackResourceDriftInfo) : StackDriftResult :=
  { stackId := stackId
    resourceLogicalId := d.logicalResourceId
    resourceType := d.resourceType
    resourcePhysicalId := d.physicalResourceId
    driftStatus := d.driftStatus
    actualProperties := d.actualProperties.getD emptyJsonObject
    expectedProperties := d.expectedProperties.getD emptyJsonObject
    propertyDifferences := d.propertyDifferences.getD emptyJsonArray }

/-- The reconciler's snapshot replacement executed to completion:
`stackDriftResult.deleteMany where stackId` followed by one `create` per
descriptor (part_010 lines 396-415).  The two steps are separate sequential
Prisma calls in the source, not a transaction; this definition is the state
after the whole sequence succeeded. -/
def replaceDriftResults (results : List StackDriftResult) (stackId : Nat)
    (drifts : List StackResourceDriftInfo) : List StackDriftResult :=
  results.filter (fun r => !(r.stackId == stackId)) ++ drifts.map (driftResultRow stackId)

/-- The store state of the same delete-then-insert sequence observed after
the `deleteMany` and the first `k` iterations of the `create` loop — i.e.
the state left behind when the (k+1)-th `create` (or the process) fails.
There is no enclosing transaction in the source, and the surrounding
`catch` (part_010 lines 417-419) swallows the error, so this intermediate
state persists. -/
def replaceDriftResultsPrefix (results : List StackDriftResult) (stackId : Nat)
    (drifts : List StackResourceDriftInfo) (k : Nat) : List StackDriftResult :=
  results.filter (fun r => !(r.stackId == stackId))
    ++ (drifts.take k).map (driftResultRow stackId)

/-- The job-row update of part_010 lines 358-365: store the remote's
reported status and failureReason, and set completedAt exactly when the
reported status is terminal. -/
def applyDriftResultToJob (now : Nat) (s : Store) (job : DriftDetectionJob)
    (dr : DriftDetectionResult) : Store :=
  { s with jobs := updateJob s.jobs job.id (fun j =>
      { j with
        status := dr.status
        failureReason := dr.failureReason
        completedAt := if dr.status ≠ .detectionInProgress then some now else none }) }

/-- The stack-row update of part_010 lines 369-379: write the reported
drift status and detection time to every stack row of the job's tuple. -/
def applyDriftStatusToStacks (now : Nat) (s : Store) (job : DriftDetectionJob)
    (ds : StackDriftStatus) : Store :=
  { s with
    cloudFormationStacks := updateStacksForTuple s.cloudFormationStacks
      job.awsAccountId job.stackName job.region (fun st =>
        { st with driftStatus := some ds, detectionTime := some now }) }

/-- The body of the per-job `try` of the tick loop (part_010 lines 324-421):
find the connected account (failing the job inline if absent, line 333),
assume the role, ask the remote for the detection status, update the job
row, and on DETECTION_COMPLETE with a drift status update the stack rows
and, when DRIFTED, run the reconciler fetch whose own failure is swallowed
by the nested catch (lines 417-419).  An `Except.error` is an exception
escaping this body into the per-job catch (lines 422-434). -/
def processJobBody (env : String → JobRemote) (now : Nat) (s : Store)
    (job : DriftDetectionJob) : Except String Store :=
  match findConnectedAccount s.accounts job.awsAccountId with
  | none => .ok (markJobFailed s job.id accountDisconnectedReason now)
  | some _acct =>
    match (env job.driftDetectionId).assumeRole with
    | .error e => .error e
    | .ok _ =>
      match (env job.driftDetectionId).detectionStatus with
      | .error e => .error e
      | .ok driftResult =>
        let s1 : Store := applyDriftResultToJob now s job driftResult
        match driftResult.status, driftResult.driftStatus with
        | .detectionComplete, some ds =>
          let s2 : Store := applyDriftStatusToStacks now s1 job ds
          if ds = .drifted then
            match (env job.driftDetectionId).resourceDrifts with
            | .error _e => .ok s2
            | .ok drifts =>
              match findStackByTuple s2.cloudFormationStacks
                  job.awsAccountId job.stackName job.region with
              | none => .ok s2
              | some stack =>
                .ok { s2 with
                  driftResults := replaceDriftResults s2.driftResults stack.id drifts }
          else .ok s2
        | _, _ => .ok s1

/-- One iteration of the tick loop: the per-job try/catch.  A thrown error
is caught and recorded against this job only, marking it DETECTION_FAILED
with the error message (part_010 lines 422-434). -/
def processJob (env : String → JobRemote) (now : Nat) (s : Store)
    (job : DriftDetectionJob) : Store :=
  match processJobBody env now s job with
  | .ok s2 => s2
  | .error e => markJobFailed s job.id e now

/-- The outstanding-job scan of the tick (part_010 lines 314-321):
`findMany where status DETECTION_IN_PROGRESS and startedAt ≥ now - 24h`. -/
def pendingJobs (s : Store) (now : Nat) : List DriftDetectionJob :=
  s.jobs.filter (fun j =>
    j.status == .detectionInProgress && decide (now - dayMs ≤ j.startedAt))

/-- `processDriftDetectionJobs` (part_010 lines 311-439): scan the
outstanding jobs and process each in order.  Total by construction: every
iteration is wrapped in the per-job catch, and the outer catch (lines
436-438) merely logs. -/
def processDriftDetectionJobs (env : String → JobRemote) (now : Nat)
    (s : Store) : Store :=
  (pendingJobs s now).foldl (processJob env now) s

/-- Exception-transparent rendering of the same tick: each iteration runs
the per-job body and converts a thrown error into the DETECTION_FAILED
update exactly as the catch of part_010 lines 422-434 does.  Used to state
that no exception propagates out of the tick. -/
def processDriftDetectionJobsE (env : String → JobRemote) (now : Nat)
    (s : Store) : Except String Store :=
  (pendingJobs s now).foldlM (fun st j =>
    match processJobBody env now st j with
    | .ok s2 => Except.ok s2
    | .error e => Except.ok (markJobFailed st j.id e now)) s

/-- Single-row read of a job by primary key (jobs stay queryable through
it; nothing in the tick ever deletes a row). -/
def jobById (s : Store) (i : Nat) : Option DriftDetectionJob :=
  s.jobs.find? (fun j => j.id == i)

/-- Single-row read of a stack by primary key. -/
def stackById (s : Store) (i : Nat) : Option CloudFormationStack :=
  s.cloudFormationStacks.find? (fun st => st.id == i)

/-- The job row an individual tick iteration writes for its own job, as a
pure function of the account lookup, the remote outcome and the clock: the
three update shapes of part_010 (lines 335-342 account missing, lines
358-365 remote report, lines 426-434 caught exception). -/
def jobOutcome (acct : Option AwsAccount) (r : JobRemote) (now : Nat)
    (j : DriftDetectionJob) : DriftDetectionJob :=
  match acct with
  | none =>
    { j with
      status := .detectionFailed
      failureReason := some accountDisconnectedReason
      completedAt := some now }
  | some _ =>
    match r.assumeRole with
    | .error e =>
      { j with
        status := .detectionFailed
        failureReason := some e
        completedAt := some now }
    | .ok _ =>
      match r.detectionStatus with
      | .error e =>
        { j with
          status := .detectionFailed
          failureReason := some e
          completedAt := some now }
      | .ok dr =>
        { j with
          status := dr.status
          failureReason := dr.failureReason
          completedAt := if dr.status ≠ .detectionInProgress then some now else none }

/-- Number of DETECTION_IN_PROGRESS job rows stored for one
(accountId, stackName, region) tuple. -/
def outstandingJobCount (s : Store) (awsAccountId stackName region : String) : Nat :=
  (s.jobs.filter (fun j =>
    j.awsAccountId == awsAccountId && j.stackName == stackName
      && j.region == region && j.status == .detectionInProgress)).length

/-- One AWS tag as returned by DescribeStacks (both members optional). -/
structure RemoteTag where
  Key : Option String
  Value : Option String
deriving DecidableEq

/-- One AWS stack output as returned by DescribeStacks. -/
structure RemoteOutput where
  OutputKey : Option String
  OutputValue : Option String
  Description : Option String
deriving DecidableEq

/-- One AWS stack parameter as returned by DescribeStacks. -/
structure RemoteParameter where
  ParameterKey : Option String
  ParameterValue : Option String
deriving DecidableEq

/-- One Stack element of a DescribeStacks response, restricted to the
members part_015 reads.  Timestamps are millisecond values (the source
renders them with toISOString, a formatting step irrelevant to which stacks
are returned).  `StackDriftStatus` stands for
`DriftInformation?.StackDriftStatus`. -/
structure RemoteStack where
  StackName : Option String
  StackId : Option String
  StackStatus : Option String
  CreationTime : Option Nat
  LastUpdatedTime : Option Nat
  StackDriftStatus : Option String
  Description : Option String
  Tags : Option (List RemoteTag)
  Outputs : Option (List RemoteOutput)
  Parameters : Option (List RemoteParameter)
deriving DecidableEq

/-- One page of a DescribeStacks result.  A `some` NextToken means the
remote holds further pages. -/
structure DescribeStacksResponse where
  Stacks : Option (List RemoteStack)
  NextToken : Option String
deriving DecidableEq

/-- The transformed output record (part_015, interface
CloudFormationStackInfo). -/
structure CloudFormationStackInfo where
  stackId : String
  stackName : String
  status : String
  driftStatus : Option String
  description : Option String
  creationTime : Nat
  lastUpdatedTime : Option Nat
  tags : Option (List (String × String))
  outputs : Option (List RemoteOutput)
  parameters : Option (List (String × String))
deriving DecidableEq

/-- The output record an output element is mapped to, with the
empty-string defaults of part_015 lines 95-99. -/
def transformOutput (o : RemoteOutput) : RemoteOutput :=
  { OutputKey := some (o.OutputKey.getD "")
    OutputValue := some (o.OutputValue.getD "")
    Description := o.Description }

/-- The per-stack body of the listing loop (part_015 lines 83-123): the
guard requiring StackName, StackId, StackStatus and CreationTime to be
present, the tag/output/parameter transforms, and the
nonempty-or-undefined wrapping of tags, outputs and parameters. -/
def transformStack (st : RemoteStack) : Option CloudFormationStackInfo :=
  match st.StackName, st.StackId, st.StackStatus, st.CreationTime with
  | some name, some sid, some status, some creation =>
    let tags : List (String × String) :=
      (st.Tags.getD []).filterMap (fun t =>
        match t.Key, t.Value with
        | some k, some v => some (k, v)
        | _, _ => none)
    let outputs : List RemoteOutput := (st.Outputs.getD []).map transformOutput
    let parameters : List (String × String) :=
      (st.Parameters.getD []).filterMap (fun p =>
        match p.ParameterKey, p.ParameterValue with
        | some k, some v => some (k, v)
        | _, _ => none)
    some
      { stackId := sid
        stackName := name
        status := status
        driftStatus := st.StackDriftStatus
        description := st.Description
        creationTime := creation
        lastUpdatedTime := st.LastUpdatedTime
        tags := if tags.length > 0 then some tags else none
        outputs := if outputs.length > 0 then some outputs else none
        parameters := if parameters.length > 0 then some parameters else none }
  | _, _, _, _ => none

/-- `listCloudFormationStacks` (part_015 lines 71-134).  The remote
DescribeStacks data is the list of its successive pages; the function sends
a single `DescribeStacksCommand(\x7b\x7d)` — which returns the first page —
and transforms `response.Stacks`.  No further `send` occurs in the source
and `NextToken` is never read. -/
def listCloudFormationStacks (pages : List DescribeStacksResponse) :
    List CloudFormationStackInfo :=
  match pages.head? with
  | none => []
  | some response => (response.Stacks.getD []).filterMap transformStack

/-- The full enumeration across every remote page, the result a
pagination-following client would assemble (used to compare against
`listCloudFormationStacks`). -/
def allPagesStacks (pages : List DescribeStacksResponse) :
    List CloudFormationStackInfo :=
  (pages.map (fun p => (p.Stacks.getD []).filterMap transformStack)).flatten

/-- `DriftStacksResponse` (part_010 lines 17-20): the payload of
GET /api/drift/stacks, built from the freshly listed stacks alone; it
carries no staleness field and does not consult the job table.  The source
field named `stacks` is rendered here as `stacksList` because `stacks` is a
reserved token in this Lean environment. -/
structure DriftStacksResponse where
  stacksList : List CloudFormationStackInfo
  total : Nat
deriving DecidableEq

/-- The response construction of `listStacksHandler` (part_010 lines
149-156). -/
def driftStacksResponse (awsStacks : List CloudFormationStackInfo) :
    DriftStacksResponse :=
  { stacksList := awsStacks, total := awsStacks.length }

/-- Projection: the status of the job row with the given id. -/
def jobStatusById (s : Store) (i : Nat) : Option JobStatus :=
  match jobById s i with
  | none => none
  | some j => some j.status

/-- Projection: the driftStatus column of the stack row with the given id. -/
def stackDriftStatusById (s : Store) (i : Nat) : Option (Option StackDriftStatus) :=
  match stackById s i with
  | none => none
  | some st => some st.driftStatus

/-- Projection: the stackName of each listed stack. -/
def stackNames (l : List CloudFormationStackInfo) : List String :=
  l.map (fun s => s.stackName)

/-! Concrete fixtures used by the closed counterexample and witness
theorems. -/

/-- A connected account grant. -/
def acctFixture : AwsAccount :=
  { id := 1
    userId := "u"
    accountId := "111122223333"
    roleArn := "arn:aws:iam::111122223333:role/cloudguard"
    externalId := "ext-1"
    region := some "us-east-1"
    status := "connected"
    createdAt := 5 }

/-- A stack row for the tuple ("111122223333", "demo-stack", "us-east-1")
whose stored driftStatus is IN_SYNC. -/
def stackFixture : CloudFormationStack :=
  { id := 10
    awsAccountId := "111122223333"
    stackName := "demo-stack"
    region := "us-east-1"
    status := "CREATE_COMPLETE"
    driftStatus := some .inSync
    driftDetectionId := none
    detectionTime := none }

/-- An outstanding job for the same tuple, started at t = 1000. -/
def jobFixture : DriftDetectionJob :=
  { id := 1
    awsAccountId := "111122223333"
    stackName := "demo-stack"
    region := "us-east-1"
    driftDetectionId := "d1"
    status := .detectionInProgress
    failureReason := none
    startedAt := 1000
    completedAt := none }

/-- Store holding the account only. -/
def storeAcctOnly : Store :=
  { accounts := [acctFixture]
    cloudFormationStacks := []
    jobs := []
    driftResults := [] }

/-- Store holding the account, the stack row and the outstanding job. -/
def storeWithJob : Store :=
  { accounts := [acctFixture]
    cloudFormationStacks := [stackFixture]
    jobs := [jobFixture]
    driftResults := [] }

/-- Remote outcome: detection reported COMPLETE with DRIFTED, but the
per-resource detail fetch throws. -/
def envDetailFetchFails : String → JobRemote := fun _ =>
  { assumeRole := .ok ()
    detectionStatus := .ok
      { status := .detectionComplete
        driftStatus := some .drifted
        failureReason := none }
    resourceDrifts := .error "Failed to get stack resource drifts" }

/-- Remote outcome: the status call throws a transient error. -/
def envTransientStatusError : String → JobRemote := fun _ =>
  { assumeRole := .ok ()
    detectionStatus := .error "Failed to get drift detection status: network timeout"
    resourceDrifts := .error "unused" }

/-- Projection: the failureReason of the job row with the given id. -/
def jobFailureReasonById (s : Store) (i : Nat) : Option (Option String) :=
  match jobById s i with
  | none => none
  | some j => some j.failureReason

/-- The store after two consecutive triggers for the same
(accountId, stackName, region) tuple, with distinct remote operation ids,
starting from a store with one connected account and no jobs. -/
def c1AfterTwoTriggers : Option Store :=
  match triggerDrift storeAcctOnly "u" "demo-stack" 1 "d1" 1000 with
  | none => none
  | some s1 => triggerDrift s1 "u" "demo-stack" 2 "d2" 2000

/-- How many DETECTION_IN_PROGRESS jobs that reachable store holds for the
tuple. -/
def c1OutstandingAfterTwoTriggers : Option Nat :=
  match c1AfterTwoTriggers with
  | none => none
  | some s2 => some (outstandingJobCount s2 "111122223333" "demo-stack" "us-east-1")

/-- The tick outcome on the job/stack fixture when the remote reports
COMPLETE with DRIFTED but the per-resource detail fetch throws
(`now` = 86400000, one day, so the job started at t = 1000 is in the
scan). -/
def c2TickResult : Store :=
  processDriftDetectionJobs envDetailFetchFails 86400000 storeWithJob

/-- The tick outcome on the same fixture when the status call throws a
transient network error. -/
def c3TickResult : Store :=
  processDriftDetectionJobs envTransientStatusError 86400000 storeWithJob

/-- Remote descriptor: a modified S3 bucket. -/
def descModified : StackResourceDriftInfo :=
  { logicalResourceId := "BucketA"
    resourceType := "AWS::S3::Bucket"
    physicalResourceId := some "bkt-a"
    driftStatus := .modified
    actualProperties := some "\x7b\"VersioningConfiguration\":\"Suspended\"\x7d"
    expectedProperties := some "\x7b\"VersioningConfiguration\":\"Enabled\"\x7d"
    propertyDifferences := none }

/-- Remote descriptor: a deleted IAM role. -/
def descDeleted : StackResourceDriftInfo :=
  { logicalResourceId := "RoleB"
    resourceType := "AWS::IAM::Role"
    physicalResourceId := none
    driftStatus := .deleted
    actualProperties := none
    expectedProperties := none
    propertyDifferences := none }

/-- Remote descriptor representing the previous snapshot's single row. -/
def descPrior : StackResourceDriftInfo :=
  { logicalResourceId := "OldQueue"
    resourceType := "AWS::SQS::Queue"
    physicalResourceId := some "q-old"
    driftStatus := .inSync
    actualProperties := none
    expectedProperties := none
    propertyDifferences := none }

/-- The snapshot rows stored for stack 10 before the reconciler runs. -/
def priorResults : List StackDriftResult := [driftResultRow 10 descPrior]

/-- The store rows left when the reconciler's delete-then-insert sequence
for stack 10 is interrupted after the first of two inserts. -/
def c4PartialState : List StackDriftResult :=
  replaceDriftResultsPrefix priorResults 10 [descModified, descDeleted] 1

/-- A 25-hour-old job still DETECTION_IN_PROGRESS (startedAt = 0, the tick
runs at now = 90000000 ms = 25 h). -/
def jobStaleFixture : DriftDetectionJob :=
  { id := 7
    awsAccountId := "111122223333"
    stackName := "stale-stack"
    region := "us-east-1"
    driftDetectionId := "d-stale"
    status := .detectionInProgress
    failureReason := none
    startedAt := 0
    completedAt := none }

/-- The stale job's stack row, still flagged DETECTION_IN_PROGRESS by the
trigger that started the job. -/
def stackStaleFixture : CloudFormationStack :=
  { id := 11
    awsAccountId := "111122223333"
    stackName := "stale-stack"
    region := "us-east-1"
    status := "CREATE_COMPLETE"
    driftStatus := some .detectionInProgress
    driftDetectionId := some "d-stale"
    detectionTime := some 0 }

/-- Store holding the stale job and its stack. -/
def storeStale : Store :=
  { accounts := [acctFixture]
    cloudFormationStacks := [stackStaleFixture]
    jobs := [jobStaleFixture]
    driftResults := [] }

/-- A perfectly responsive remote reporting COMPLETE and IN_SYNC. -/
def envRemoteInSync : String → JobRemote := fun _ =>
  { assumeRole := .ok ()
    detectionStatus := .ok
      { status := .detectionComplete
        driftStatus := some .inSync
        failureReason := none }
    resourceDrifts := .ok [] }

/-- The tick outcome on the stale store at now = 25 h. -/
def c7TickResult : Store := processDriftDetectionJobs envRemoteInSync 90000000 storeStale

/-- A remote stack descriptor carrying all fields the listing guard
requires. -/
def pageStackNamed (name : String) : RemoteStack :=
  { StackName := some name
    StackId := some ("id-" ++ name)
    StackStatus := some "CREATE_COMPLETE"
    CreationTime := some 1000
    LastUpdatedTime := none
    StackDriftStatus := none
    Description := none
    Tags := none
    Outputs := none
    Parameters := none }

/-- A paginated DescribeStacks result: page one holds stack "alpha" and a
NextToken announcing more data; page two holds stack "beta". -/
def twoPagesFixture : List DescribeStacksResponse :=
  [ { Stacks := some [pageStackNamed "alpha"], NextToken := some "token-1" }
  , { Stacks := some [pageStackNamed "beta"], NextToken := none } ]

/-- The job-table invariant of the schema as the code maintains it:
`completedAt` is null exactly while the job is DETECTION_IN_PROGRESS. -/
def JobInv (j : DriftDetectionJob) : Prop :=
  j.completedAt = none ↔ j.status = .detectionInProgress

/-- Store states reachable by the drift subsystem: any starting state with
an empty job table (accounts and stacks are written by out-of-scope
handlers), followed by any interleaving of successful triggers and ticks
with arbitrary remote outcomes and clocks. -/
inductive Reachable : Store → Prop where
  | init (accounts : List AwsAccount) (stackRows : List CloudFormationStack)
      (results : List StackDriftResult) :
      Reachable { accounts := accounts, cloudFormationStacks := stackRows,
                  jobs := [], driftResults := results }
  | trigger (s s' : Store) (userId stackName : String) (jobId : Nat)
      (driftDetectionId : String) (now : Nat) :
      Reachable s →
      triggerDrift s userId stackName jobId driftDetectionId now = some s' →
      Reachable s'
  | tick (s : Store) (env : String → JobRemote) (now : Nat) :
      Reachable s → Reachable (processDriftDetectionJobs env now s)

/-- The store produced by one successful trigger on `storeAcctOnly`
(a reachable state used by witnesses). -/
def storeAfterTrigger : Store :=
  (triggerDrift storeAcctOnly "u" "demo-stack" 1 "d1" 1000).getD storeAcctOnly

/-- Outstanding job A, whose remote status call will throw. -/
def jobA6 : DriftDetectionJob :=
  { id := 1
    awsAccountId := "111122223333"
    stackName := "demo-stack"
    region := "us-east-1"
    driftDetectionId := "dA"
    status := .detectionInProgress
    failureReason := none
    startedAt := 1000
    completedAt := none }

/-- Outstanding job B, processed after A in the same tick. -/
def jobB6 : DriftDetectionJob :=
  { id := 2
    awsAccountId := "111122223333"
    stackName := "other-stack"
    region := "us-east-1"
    driftDetectionId := "dB"
    status := .detectionInProgress
    failureReason := none
    startedAt := 2000
    completedAt := none }

/-- Store with two outstanding jobs in one tick. -/
def storeTwoJobs : Store :=
  { accounts := [acctFixture]
    cloudFormationStacks := []
    jobs := [jobA6, jobB6]
    driftResults := [] }

/-- Remote outcomes: job A's status call throws, job B completes IN_SYNC. -/
def envAFailsBSucceeds : String → JobRemote := fun d =>
  if d == "dA" then
    { assumeRole := .ok ()
      detectionStatus := .error "Failed to get drift detection status: throttled"
      resourceDrifts := .error "unused" }
  else
    { assumeRole := .ok ()
      detectionStatus := .ok
        { status := .detectionComplete
          driftStatus := some .inSync
          failureReason := none }
      resourceDrifts := .ok [] }

/-! ## Theorems -/

/-- C1 counterexample: from a store with one connected account and no jobs
(a reachable state), two consecutive triggers for the stack "demo-stack"
with distinct remote operation ids both succeed, and the resulting
reachable store holds TWO jobs with status DETECTION_IN_PROGRESS for the
same (accountId, stackName, region) tuple.  `triggerDriftHandler` performs
no per-tuple check, rejection or supersession (part_010 lines 229-257), and
the schema's only uniqueness on drift_detection_jobs is on
driftDetectionId; this refutes the claimed at-most-one-IN_PROGRESS
invariant. -/
theorem c1_per_tuple_uniqueness_counterexample :
    c1OutstandingAfterTwoTriggers = some 2 ∧ ¬ (2 ≤ 1) := by
  decide

/-- C2 counterexample: with the stored stack at driftStatus IN_SYNC and its
job outstanding, a tick whose remote reports COMPLETE/DRIFTED but whose
per-resource detail fetch throws leaves the job COMPLETE (that part of the
claim holds) — but the stack's driftStatus has been overwritten to DRIFTED
(part_010 lines 369-379 run before the detail fetch of line 384), not
retained at its prior IN_SYNC value, and the next tick two minutes later
has an empty outstanding-job scan, so the detail fetch is never retried. -/
theorem c2_detail_fetch_failure_counterexample :
    stackDriftStatusById storeWithJob 10 = some (some .inSync)
      ∧ stackDriftStatusById c2TickResult 10 = some (some .drifted)
      ∧ jobStatusById c2TickResult 1 = some .detectionComplete
      ∧ pendingJobs c2TickResult 86520000 = [] := by
  decide

/-- C3 counterexample: a single transient error thrown by the status call
("network timeout") is caught by the per-job catch (part_010 lines 422-434)
which marks the job DETECTION_FAILED with the error message and a
completedAt timestamp — the job does not remain IN_PROGRESS for retry, so
the next tick's scan is empty. -/
theorem c3_transient_error_counterexample :
    jobStatusById c3TickResult 1 = some .detectionFailed
      ∧ jobFailureReasonById c3TickResult 1
          = some (some "Failed to get drift detection status: network timeout")
      ∧ ¬ jobStatusById c3TickResult 1 = some .detectionInProgress
      ∧ pendingJobs c3TickResult 86520000 = [] := by
  decide

/-- C4 counterexample: the reconciler's deleteMany-then-create sequence has
no enclosing transaction (part_010 lines 396-415 are separate awaited Prisma
calls), so the interruption after the first of two inserts — whose error the
surrounding catch at lines 417-419 swallows — leaves a stored set that is
neither the prior snapshot nor the full new snapshot: a partial mix,
refuting the claimed atomicity. -/
theorem c4_atomic_replacement_counterexample :
    ¬ c4PartialState = priorResults
      ∧ ¬ c4PartialState = replaceDriftResults priorResults 10 [descModified, descDeleted] := by
  decide

/-- C7 counterexample: a job 25 hours old and still DETECTION_IN_PROGRESS
is excluded from the scan and left untouched (these parts of the claim
hold), but nothing reports it as stale: after the tick the stored stack row
still carries driftStatus DETECTION_IN_PROGRESS — the marker of an actively
progressing detection — and no read path of the source derives a staleness
field (`driftStacksResponse` is built from the live listing alone), so the
job is reported as actively progressing, not as stale. -/
theorem c7_stale_reporting_counterexample :
    pendingJobs storeStale 90000000 = []
      ∧ jobById c7TickResult 7 = some jobStaleFixture
      ∧ stackDriftStatusById c7TickResult 11 = some (some .detectionInProgress)
      ∧ (driftStacksResponse []).stacksList = [] := by
  decide

/-- C8 (code bug): `listCloudFormationStacks` issues a single
DescribeStacks call and never reads NextToken (part_015 lines 71-134), so
on a paginated remote result it returns only the first page: stack "beta"
of page two is absent from the returned list even though the full
enumeration contains it.  This contradicts the function's own doc comment
("List all CloudFormation stacks in the account") and the claimed
pagination transparency. -/
theorem c8_pagination_ignored :
    stackNames (listCloudFormationStacks twoPagesFixture) = ["alpha"]
      ∧ stackNames (allPagesStacks twoPagesFixture) = ["alpha", "beta"]
      ∧ ¬ "beta" ∈ stackNames (listCloudFormationStacks twoPagesFixture) := by
  decide

/-! ### Helper lemmas on the store primitives -/

theorem find?_updateJob_of_ne (jobs : List DriftDetectionJob) (jobId i : Nat)
    (f : DriftDetectionJob → DriftDetectionJob) (hf : ∀ j, (f j).id = j.id)
    (hne : ¬ i = jobId) :
    (updateJob jobs jobId f).find? (fun j => j.id == i)
      = jobs.find? (fun j => j.id == i) := by
  induction jobs with
  | nil => rfl
  | cons j js ih =>
    simp only [updateJob, List.map_cons] at *
    have hni : ¬ jobId = i := fun h => hne h.symm
    by_cases hj : j.id = jobId
    · have h2 : ((f j).id == i) = false := by
        simp only [hf j, hj, beq_eq_false_iff_ne, ne_eq]
        exact hni
      have h3 : (j.id == i) = false := by
        simp only [hj, beq_eq_false_iff_ne, ne_eq]
        exact hni
      rw [if_pos (by simp [hj])]
      simp only [List.find?_cons, h2, h3, ih]
    · rw [if_neg (by simp [hj])]
      by_cases hji : j.id = i
      · have h4 : (j.id == i) = true := by simp [hji]
        simp only [List.find?_cons, h4]
      · have h4 : (j.id == i) = false := by
          simp only [beq_eq_false_iff_ne, ne_eq]
          exact hji
        simp only [List.find?_cons, h4, ih]

theorem find?_updateJob_self (jobs : List DriftDetectionJob) (jobId : Nat)
    (f : DriftDetectionJob → DriftDetectionJob) (hf : ∀ j, (f j).id = j.id)
    (jb : DriftDetectionJob)
    (hfind : jobs.find? (fun j => j.id == jobId) = some jb) :
    (updateJob jobs jobId f).find? (fun j => j.id == jobId) = some (f jb) := by
  induction jobs with
  | nil => simp [List.find?] at hfind
  | cons j js ih =>
    simp only [updateJob, List.map_cons] at *
    by_cases hj : j.id = jobId
    · have h1 : (j.id == jobId) = true := by simp [hj]
      simp only [List.find?_cons, h1] at hfind
      have hjb : j = jb := by injection hfind
      subst hjb
      have h2 : ((f j).id == jobId) = true := by simp [hf j, hj]
      rw [if_pos h1]
      simp only [List.find?_cons, h2]
    · have h1 : (j.id == jobId) = false := by
        simp only [beq_eq_false_iff_ne, ne_eq]
        exact hj
      simp only [List.find?_cons, h1] at hfind
      rw [if_neg (by simp [hj])]
      simp only [List.find?_cons, h1, ih hfind]

theorem mem_id_eq_of_nodup {jobs : List DriftDetectionJob}
    (h : (jobs.map (fun j => j.id)).Nodup) {a b : DriftDetectionJob}
    (ha : a ∈ jobs) (hb : b ∈ jobs) (hid : a.id = b.id) : a = b := by
  induction jobs with
  | nil => cases ha
  | cons j js ih =>
    simp only [List.map_cons, List.nodup_cons] at h
    rcases List.mem_cons.mp ha with rfl | ha2
    · rcases List.mem_cons.mp hb with rfl | hb2
      · rfl
      · exact absurd (hid ▸ List.mem_map_of_mem (fun j => j.id) hb2) h.1
    · rcases List.mem_cons.mp hb with rfl | hb2
      · exact absurd (hid ▸ List.mem_map_of_mem (fun j => j.id) ha2) h.1
      · exact ih h.2 ha2 hb2

theorem find?_eq_of_mem_nodup {jobs : List DriftDetectionJob}
    (h : (jobs.map (fun j => j.id)).Nodup) {jb : DriftDetectionJob}
    (hmem : jb ∈ jobs) :
    jobs.find? (fun j => j.id == jb.id) = some jb := by
  induction jobs with
  | nil => cases hmem
  | cons j js ih =>
    simp only [List.map_cons, List.nodup_cons] at h
    rcases List.mem_cons.mp hmem with rfl | hmem2
    · exact List.find?_cons_of_pos _ (by simp)
    · have hne : (j.id == jb.id) = false := by
        simp only [beq_eq_false_iff_ne, ne_eq]
        intro hide
        exact h.1 (hide ▸ List.mem_map_of_mem (fun j => j.id) hmem2)
      simp only [List.find?_cons, hne, ih h.2 hmem2]

theorem jobInv_failedUpdate (reason : String) (now : Nat) (j : DriftDetectionJob) :
    JobInv { j with
      status := .detectionFailed
      failureReason := some reason
      completedAt := some now } := by
  simp [JobInv]

theorem jobInv_statusUpdate (dr : DriftDetectionResult) (now : Nat)
    (j : DriftDetectionJob) :
    JobInv { j with
      status := dr.status
      failureReason := dr.failureReason
      completedAt := if dr.status ≠ .detectionInProgress then some now else none } := by
  cases h : dr.status <;> simp [JobInv, h]

theorem processJobBody_ok (env : String → JobRemote) (now : Nat) (s : Store)
    (job : DriftDetectionJob) (s2 : Store)
    (h : processJobBody env now s job = Except.ok s2) :
    s2.accounts = s.accounts ∧
      ∃ f : DriftDetectionJob → DriftDetectionJob,
        (∀ j, (f j).id = j.id) ∧ (∀ j, JobInv (f j)) ∧
          s2.jobs = updateJob s.jobs job.id f := by
  unfold processJobBody at h
  cases hacct : findConnectedAccount s.accounts job.awsAccountId <;>
    simp only [hacct] at h
  · simp only [Except.ok.injEq] at h
    subst h
    refine ⟨rfl, fun j =>
      { j with
        status := .detectionFailed
        failureReason := some accountDisconnectedReason
        completedAt := some now }, fun j => rfl,
      fun j => jobInv_failedUpdate accountDisconnectedReason now j, rfl⟩
  · cases har : (env job.driftDetectionId).assumeRole <;> simp only [har] at h
    · exact absurd h (by simp)
    cases hds : (env job.driftDetectionId).detectionStatus <;> simp only [hds] at h
    · exact absurd h (by simp)
    rename_i dr
    have finish2 :
        ∀ s3 : Store, s3.jobs = (applyDriftResultToJob now s job dr).jobs →
          s3.accounts = s.accounts →
          s3.accounts = s.accounts ∧
            ∃ f : DriftDetectionJob → DriftDetectionJob,
              (∀ j, (f j).id = j.id) ∧ (∀ j, JobInv (f j)) ∧
                s3.jobs = updateJob s.jobs job.id f := by
      intro s3 hjobs hacc
      refine ⟨hacc, fun j =>
        { j with
          status := dr.status
          failureReason := dr.failureReason
          completedAt :=
            if dr.status ≠ .detectionInProgress then some now else none },
        fun j => rfl, fun j => jobInv_statusUpdate dr now j, hjobs⟩
    cases hst : dr.status <;> cases hdr : dr.driftStatus <;>
      simp only [hst, hdr, Except.ok.injEq] at h
    case detectionComplete.some ds =>
      by_cases hdrift : ds = .drifted
      · subst hdrift
        rw [if_pos rfl] at h
        cases hrd : (env job.driftDetectionId).resourceDrifts <;>
          simp only [hrd, Except.ok.injEq] at h
        · subst h
          exact finish2 _ rfl rfl
        · cases hfs : findStackByTuple
              (applyDriftStatusToStacks now (applyDriftResultToJob now s job dr)
                job .drifted).cloudFormationStacks
              job.awsAccountId job.stackName job.region <;>
            simp only [hfs, Except.ok.injEq] at h <;> subst h
          · exact finish2 _ rfl rfl
          · exact finish2 _ rfl rfl
      · rw [if_neg hdrift] at h
        simp only [Except.ok.injEq] at h
        subst h
        exact finish2 _ rfl rfl
    all_goals subst h
    all_goals exact finish2 _ rfl rfl

theorem processJob_spec (env : String → JobRemote) (now : Nat) (s : Store)
    (job : DriftDetectionJob) :
    (processJob env now s job).accounts = s.accounts ∧
      ∃ f : DriftDetectionJob → DriftDetectionJob,
        (∀ j, (f j).id = j.id) ∧ (∀ j, JobInv (f j)) ∧
          (processJob env now s job).jobs = updateJob s.jobs job.id f ∧
          f job = jobOutcome (findConnectedAccount s.accounts job.awsAccountId)
            (env job.driftDetectionId) now job := by
  unfold processJob processJobBody
  cases hacct : findConnectedAccount s.accounts job.awsAccountId
  · refine ⟨rfl, fun j =>
      { j with
        status := .detectionFailed
        failureReason := some accountDisconnectedReason
        completedAt := some now },
      fun j => rfl, fun j => jobInv_failedUpdate _ _ j, rfl, rfl⟩
  · rename_i acct
    cases har : (env job.driftDetectionId).assumeRole
    · rename_i e
      refine ⟨rfl, fun j =>
        { j with
          status := .detectionFailed
          failureReason := some e
          completedAt := some now },
        fun j => rfl, fun j => jobInv_failedUpdate _ _ j, rfl, ?_⟩
      simp only [jobOutcome, har]
    · cases hds : (env job.driftDetectionId).detectionStatus
      · rename_i e
        refine ⟨rfl, fun j =>
          { j with
            status := .detectionFailed
            failureReason := some e
            completedAt := some now },
          fun j => rfl, fun j => jobInv_failedUpdate _ _ j, rfl, ?_⟩
        simp only [jobOutcome, har, hds]
      · rename_i dr
        have houtcome :
            jobOutcome (some acct) (env job.driftDetectionId) now job
              = { job with
                  status := dr.status
                  failureReason := dr.failureReason
                  completedAt :=
                    if dr.status ≠ .detectionInProgress then some now else none } := by
          simp only [jobOutcome, har, hds]
        have finish2 :
            ∀ s3 : Store, s3.accounts = s.accounts →
              s3.jobs = (applyDriftResultToJob now s job dr).jobs →
              s3.accounts = s.accounts ∧
                ∃ f : DriftDetectionJob → DriftDetectionJob,
                  (∀ j, (f j).id = j.id) ∧ (∀ j, JobInv (f j)) ∧
                    s3.jobs = updateJob s.jobs job.id f ∧
                    f job = jobOutcome (some acct) (env job.driftDetectionId) now job := by
          intro s3 hacc hjobs
          refine ⟨hacc, fun j =>
            { j with
              status := dr.status
              failureReason := dr.failureReason
              completedAt :=
                if dr.status ≠ .detectionInProgress then some now else none },
            fun j => rfl, fun j => jobInv_statusUpdate dr now j, hjobs, houtcome.symm⟩
        cases hst : dr.status <;> cases hdr : dr.driftStatus <;>
          simp only [hst, hdr]
        case detectionComplete.some ds =>
          by_cases hdrift : ds = .drifted
          · subst hdrift
            rw [if_pos rfl]
            cases hrd : (env job.driftDetectionId).resourceDrifts
            · exact finish2 _ rfl rfl
            · cases hfs : findStackByTuple
                  (applyDriftStatusToStacks now (applyDriftResultToJob now s job dr)
                    job .drifted).cloudFormationStacks
                  job.awsAccountId job.stackName job.region
              · exact finish2 _ rfl rfl
              · exact finish2 _ rfl rfl
          · rw [if_neg hdrift]
            exact finish2 _ rfl rfl
        all_goals exact finish2 _ rfl rfl

theorem processJob_accounts (env : String → JobRemote) (now : Nat) (s : Store)
    (job : DriftDetectionJob) : (processJob env now s job).accounts = s.accounts :=
  (processJob_spec env now s job).1

theorem processJob_find_ne (env : String → JobRemote) (now : Nat) (s : Store)
    (job : DriftDetectionJob) (i : Nat) (hne : ¬ i = job.id) :
    (processJob env now s job).jobs.find? (fun j => j.id == i)
      = s.jobs.find? (fun j => j.id == i) := by
  obtain ⟨-, f, hid, -, hjobs, -⟩ := processJob_spec env now s job
  rw [hjobs, find?_updateJob_of_ne _ _ _ _ hid hne]

theorem processJob_find_self (env : String → JobRemote) (now : Nat) (s : Store)
    (job : DriftDetectionJob)
    (hfind : s.jobs.find? (fun j => j.id == job.id) = some job) :
    (processJob env now s job).jobs.find? (fun j => j.id == job.id)
      = some (jobOutcome (findConnectedAccount s.accounts job.awsAccountId)
          (env job.driftDetectionId) now job) := by
  obtain ⟨-, f, hid, -, hjobs, hfj⟩ := processJob_spec env now s job
  rw [hjobs, find?_updateJob_self _ _ _ hid _ hfind, hfj]

theorem processJob_inv (env : String → JobRemote) (now : Nat) (s : Store)
    (job : DriftDetectionJob) (h : ∀ j ∈ s.jobs, JobInv j) :
    ∀ j ∈ (processJob env now s job).jobs, JobInv j := by
  obtain ⟨-, f, hid, hinv, hjobs, -⟩ := processJob_spec env now s job
  rw [hjobs]
  intro j2 hj2
  simp only [updateJob, List.mem_map] at hj2
  obtain ⟨j, hj, hj2eq⟩ := hj2
  by_cases hc : (j.id == job.id) = true
  · rw [if_pos hc] at hj2eq
    exact hj2eq ▸ hinv j
  · rw [if_neg hc] at hj2eq
    exact hj2eq ▸ h j hj

theorem foldl_processJob_accounts (env : String → JobRemote) (now : Nat)
    (l : List DriftDetectionJob) :
    ∀ s : Store, (l.foldl (processJob env now) s).accounts = s.accounts := by
  induction l with
  | nil => intro s; rfl
  | cons j l ih =>
    intro s
    rw [List.foldl_cons, ih, processJob_accounts]

theorem foldl_processJob_find_ne (env : String → JobRemote) (now : Nat) (i : Nat)
    (l : List DriftDetectionJob) :
    ∀ s : Store, (∀ j ∈ l, ¬ i = j.id) →
      ((l.foldl (processJob env now) s).jobs.find? (fun j => j.id == i))
        = s.jobs.find? (fun j => j.id == i) := by
  induction l with
  | nil => intro s _; rfl
  | cons j l ih =>
    intro s hl
    rw [List.foldl_cons, ih _ (fun a ha => hl a (List.mem_cons_of_mem _ ha)),
      processJob_find_ne env now s j i (hl j (List.mem_cons_self _ _))]

theorem foldl_processJob_inv (env : String → JobRemote) (now : Nat)
    (l : List DriftDetectionJob) :
    ∀ s : Store, (∀ j ∈ s.jobs, JobInv j) →
      ∀ j ∈ (l.foldl (processJob env now) s).jobs, JobInv j := by
  induction l with
  | nil => intro s h; exact h
  | cons j l ih =>
    intro s h
    rw [List.foldl_cons]
    exact ih _ (processJob_inv env now s j h)

theorem foldl_processJob_lookup (env : String → JobRemote) (now : Nat)
    (B : DriftDetectionJob) (l : List DriftDetectionJob) :
    ∀ s : Store, (l.map (fun j => j.id)).Nodup → B ∈ l →
      s.jobs.find? (fun j => j.id == B.id) = some B →
      ((l.foldl (processJob env now) s).jobs.find? (fun j => j.id == B.id))
        = some (jobOutcome (findConnectedAccount s.accounts B.awsAccountId)
            (env B.driftDetectionId) now B) := by
  induction l with
  | nil => intro s _ hB _; cases hB
  | cons A l ih =>
    intro s hnodup hB hfind
    simp only [List.map_cons, List.nodup_cons] at hnodup
    rw [List.foldl_cons]
    rcases List.mem_cons.mp hB with rfl | hBl
    · have hrest : ∀ j ∈ l, ¬ B.id = j.id := by
        intro j hj heq
        exact hnodup.1 (heq ▸ List.mem_map_of_mem (fun j => j.id) hj)
      rw [foldl_processJob_find_ne env now B.id l _ hrest,
        processJob_find_self env now s B hfind]
    · have hne : ¬ B.id = A.id := by
        intro heq
        exact hnodup.1 (heq ▸ List.mem_map_of_mem (fun j => j.id) hBl)
      have hfind2 : (processJob env now s A).jobs.find? (fun j => j.id == B.id) = some B := by
        rw [processJob_find_ne env now s A B.id hne, hfind]
      rw [ih (processJob env now s A) hnodup.2 hBl hfind2, processJob_accounts]

theorem processJobsE_ok (env : String → JobRemote) (now : Nat)
    (l : List DriftDetectionJob) :
    ∀ s : Store,
      (l.foldlM (fun st j =>
        match processJobBody env now st j with
        | .ok s2 => Except.ok s2
        | .error e => Except.ok (markJobFailed st j.id e now)) s : Except String Store)
        = Except.ok (l.foldl (processJob env now) s) := by
  induction l with
  | nil => intro s; rfl
  | cons j l ih =>
    intro s
    have hstep : (match processJobBody env now s j with
        | .ok s2 => Except.ok s2
        | .error e => Except.ok (markJobFailed s j.id e now) : Except String Store)
        = Except.ok (processJob env now s j) := by
      unfold processJob
      cases processJobBody env now s j <;> rfl
    rw [List.foldlM_cons, hstep]
    exact ih (processJob env now s j)

theorem mem_pendingJobs {s : Store} {now : Nat} {j : DriftDetectionJob} :
    j ∈ pendingJobs s now
      ↔ j ∈ s.jobs ∧ j.status = .detectionInProgress ∧ now - dayMs ≤ j.startedAt := by
  simp [pendingJobs, List.mem_filter, and_assoc]

theorem pendingJobs_ids_nodup {s : Store} {now : Nat}
    (h : (s.jobs.map (fun j => j.id)).Nodup) :
    ((pendingJobs s now).map (fun j => j.id)).Nodup := by
  have hsub : List.Sublist ((pendingJobs s now).map (fun j => j.id))
      (s.jobs.map (fun j => j.id)) :=
    (List.filter_sublist s.jobs).map (fun j => j.id)
  exact h.sublist hsub

theorem triggerDrift_ok_parts (s : Store) (userId stackName : String) (jobId : Nat)
    (did : String) (now : Nat) (s' : Store)
    (h : triggerDrift s userId stackName jobId did now = some s') :
    ∃ acct, getUserAwsCredentials s userId = some acct
      ∧ s'.jobs = s.jobs ++ [newDriftJob acct stackName jobId did now]
      ∧ s'.accounts = s.accounts ∧ s'.driftResults = s.driftResults := by
  unfold triggerDrift at h
  by_cases hempty : stackName.isEmpty = true
  · rw [if_pos hempty] at h
    exact absurd h (by simp)
  · rw [if_neg hempty] at h
    cases hcred : getUserAwsCredentials s userId <;> simp only [hcred] at h
    · exact absurd h (by simp)
    · rename_i acct
      by_cases hdup : s.jobs.any (fun j => j.driftDetectionId == did) = true
      · rw [if_pos hdup] at h
        exact absurd h (by simp)
      · rw [if_neg hdup] at h
        simp only [Option.some.injEq] at h
        subst h
        exact ⟨acct, rfl, rfl, rfl, rfl⟩

theorem mem_insertByCreatedAtDesc {a x : AwsAccount} {l : List AwsAccount} :
    x ∈ insertByCreatedAtDesc a l ↔ x = a ∨ x ∈ l := by
  induction l with
  | nil => simp [insertByCreatedAtDesc]
  | cons b bs ih =>
    simp only [insertByCreatedAtDesc]
    by_cases hc : b.createdAt ≤ a.createdAt
    · rw [if_pos hc]
      simp [List.mem_cons]
    · rw [if_neg hc]
      simp only [List.mem_cons, ih]
      tauto

theorem mem_sortByCreatedAtDesc {x : AwsAccount} {l : List AwsAccount} :
    x ∈ sortByCreatedAtDesc l ↔ x ∈ l := by
  induction l with
  | nil => simp [sortByCreatedAtDesc]
  | cons a as ih =>
    simp [sortByCreatedAtDesc, mem_insertByCreatedAtDesc, ih, List.mem_cons]

theorem sortByCreatedAtDesc_eq_nil {l : List AwsAccount} :
    sortByCreatedAtDesc l = [] ↔ l = [] := by
  cases l with
  | nil => simp [sortByCreatedAtDesc]
  | cons a as =>
    simp only [sortByCreatedAtDesc]
    constructor
    · intro h
      exfalso
      cases hm : sortByCreatedAtDesc as with
      | nil => rw [hm] at h; simp [insertByCreatedAtDesc] at h
      | cons b bs =>
        rw [hm] at h
        simp only [insertByCreatedAtDesc] at h
        by_cases hc : b.createdAt ≤ a.createdAt
        · rw [if_pos hc] at h; simp at h
        · rw [if_neg hc] at h; simp at h
    · intro h
      cases h

theorem sort_head_max (l : List AwsAccount) :
    ∀ (c : AwsAccount) (t : List AwsAccount), sortByCreatedAtDesc l = c :: t →
      ∀ x ∈ l, x.createdAt ≤ c.createdAt := by
  induction l with
  | nil => intro c t h; simp [sortByCreatedAtDesc] at h
  | cons a as ih =>
    intro c t h x hx
    simp only [sortByCreatedAtDesc] at h
    cases hs : sortByCreatedAtDesc as with
    | nil =>
      rw [hs] at h
      simp only [insertByCreatedAtDesc] at h
      have hca : c = a := by
        injection h with h1 h2
        exact h1.symm
      subst hca
      have has : as = [] := sortByCreatedAtDesc_eq_nil.mp hs
      subst has
      rcases List.mem_cons.mp hx with rfl | hx2
      · exact le_refl _
      · cases hx2
    | cons b bs =>
      rw [hs] at h
      simp only [insertByCreatedAtDesc] at h
      by_cases hc : b.createdAt ≤ a.createdAt
      · rw [if_pos hc] at h
        have hca : c = a := by
          injection h with h1 h2
          exact h1.symm
        subst hca
        rcases List.mem_cons.mp hx with rfl | hx2
        · exact le_refl _
        · exact le_trans (ih b bs hs x hx2) hc
      · rw [if_neg hc] at h
        have hcb : c = b := by
          injection h with h1 h2
          exact h1.symm
        rw [hcb]
        rcases List.mem_cons.mp hx with rfl | hx2
        · exact le_of_not_le hc
        · exact ih b bs hs x hx2

/-- C6: no exception propagates out of the tick (its exception-transparent
rendering always returns `ok`: every iteration's error is converted into
the per-job DETECTION_FAILED update by the catch of part_010 lines 422-434),
and processing is isolated per job: whatever the remote does to every other
job — including throwing — each outstanding job B ends the tick with
exactly the record its own account lookup and remote outcome dictate. -/
theorem c6_tick_fault_isolation (env : String → JobRemote) (now : Nat) (s : Store)
    (B : DriftDetectionJob) (hB : B ∈ pendingJobs s now)
    (hnodup : (s.jobs.map (fun j => j.id)).Nodup) :
    processDriftDetectionJobsE env now s
        = Except.ok (processDriftDetectionJobs env now s)
      ∧ jobById (processDriftDetectionJobs env now s) B.id
        = some (jobOutcome (findConnectedAccount s.accounts B.awsAccountId)
            (env B.driftDetectionId) now B) := by
  constructor
  · unfold processDriftDetectionJobsE processDriftDetectionJobs
    exact processJobsE_ok env now (pendingJobs s now) s
  · have hmem : B ∈ s.jobs := (mem_pendingJobs.mp hB).1
    have hfind := find?_eq_of_mem_nodup hnodup hmem
    unfold processDriftDetectionJobs jobById
    exact foldl_processJob_lookup env now B (pendingJobs s now) s
      (pendingJobs_ids_nodup hnodup) hB hfind

/-- C6 witness: in a tick over jobs A and B where A's status call throws,
B is still processed to completion (its record ends as its own remote
outcome dictates: DETECTION_COMPLETE). -/
theorem c6_tick_fault_isolation_witness :
    jobById (processDriftDetectionJobs envAFailsBSucceeds 86400000 storeTwoJobs) 2
      = some (jobOutcome (findConnectedAccount storeTwoJobs.accounts jobB6.awsAccountId)
          (envAFailsBSucceeds jobB6.driftDetectionId) 86400000 jobB6) :=
  (c6_tick_fault_isolation envAFailsBSucceeds 86400000 storeTwoJobs jobB6
    (by decide) (by decide)).2

/-- C7 (amended): a job still DETECTION_IN_PROGRESS whose startedAt is more
than 24 hours before the tick is absent from the outstanding-job scan, and
the whole tick leaves its stored record — status, failureReason and
completedAt — unchanged while the row remains queryable by id.  (The claim's
further assertion that the read API reports such a job as stale is refuted
by the counterexample: nothing in the source derives staleness.) -/
theorem c7_retention_window_exclusion (env : String → JobRemote) (now : Nat)
    (s : Store) (job : DriftDetectionJob) (hmem : job ∈ s.jobs)
    (_hst : job.status = .detectionInProgress)
    (hage : job.startedAt + dayMs < now)
    (hnodup : (s.jobs.map (fun j => j.id)).Nodup) :
    ¬ job ∈ pendingJobs s now
      ∧ jobById (processDriftDetectionJobs env now s) job.id = some job := by
  have hout : ¬ job ∈ pendingJobs s now := by
    intro hpend
    have h2 := (mem_pendingJobs.mp hpend).2.2
    omega
  refine ⟨hout, ?_⟩
  have hne : ∀ j ∈ pendingJobs s now, ¬ job.id = j.id := by
    intro j hj heq
    have hjmem := (mem_pendingJobs.mp hj).1
    have hje : job = j := mem_id_eq_of_nodup hnodup hmem hjmem heq
    exact hout (hje ▸ hj)
  unfold processDriftDetectionJobs jobById
  rw [foldl_processJob_find_ne env now job.id (pendingJobs s now) s hne]
  exact find?_eq_of_mem_nodup hnodup hmem

/-- C7 witness: the 25-hour-old IN_PROGRESS job of the stale fixture is
excluded from the scan at now = 25 h and its record survives the tick
unchanged. -/
theorem c7_retention_window_exclusion_witness :
    ¬ jobStaleFixture ∈ pendingJobs storeStale 90000000
      ∧ jobById (processDriftDetectionJobs envRemoteInSync 90000000 storeStale)
          jobStaleFixture.id = some jobStaleFixture :=
  c7_retention_window_exclusion envRemoteInSync 90000000 storeStale jobStaleFixture
    (by decide) (by decide) (by decide) (by decide)

/-- C9: in every reachable store, a job row's completedAt is null exactly
while its status is DETECTION_IN_PROGRESS: creation stores the pair
(DETECTION_IN_PROGRESS, null), and each of the three update shapes — the
remote status report, the disconnected-account failure, and the per-job
error handler — writes a non-null completedAt exactly when it writes a
terminal status. -/
theorem c9_completedAt_iff_in_progress (s : Store) (h : Reachable s) :
    ∀ j ∈ s.jobs, (j.completedAt = none ↔ j.status = .detectionInProgress) := by
  induction h with
  | init accounts stackRows results =>
    intro j hj
    cases hj
  | trigger s s' userId stackName jobId did now hs htrig ih =>
    obtain ⟨acct, -, hjobs, -, -⟩ :=
      triggerDrift_ok_parts s userId stackName jobId did now s' htrig
    intro j hj
    rw [hjobs] at hj
    rcases List.mem_append.mp hj with hj1 | hj2
    · exact ih j hj1
    · simp only [List.mem_singleton] at hj2
      subst hj2
      simp [newDriftJob]
  | tick s env now hs ih =>
    exact foldl_processJob_inv env now (pendingJobs s now) s ih

/-- C9 witness: the job created by a concrete successful trigger (a
reachable store) satisfies the invariant. -/
theorem c9_completedAt_iff_in_progress_witness :
    jobFixture.completedAt = none ↔ jobFixture.status = JobStatus.detectionInProgress :=
  c9_completedAt_iff_in_progress storeAfterTrigger
    (Reachable.trigger storeAcctOnly storeAfterTrigger "u" "demo-stack" 1 "d1" 1000
      (Reachable.init [acctFixture] [] []) (by decide))
    jobFixture (by decide)

theorem filterNe_idem (results : List StackDriftResult) (stackId : Nat) :
    ((results.filter (fun r => !(r.stackId == stackId))).filter
      (fun r => !(r.stackId == stackId)))
      = results.filter (fun r => !(r.stackId == stackId)) := by
  induction results with
  | nil => rfl
  | cons r rs ih =>
    by_cases hc : (!(r.stackId == stackId)) = true
    · simp [List.filter_cons, hc, ih]
    · simp [List.filter_cons, hc, ih]

theorem filterEq_of_filterNe (results : List StackDriftResult) (stackId : Nat) :
    ((results.filter (fun r => !(r.stackId == stackId))).filter
      (fun r => r.stackId == stackId)) = [] := by
  induction results with
  | nil => rfl
  | cons r rs ih =>
    by_cases hc : (r.stackId == stackId) = true
    · simp [List.filter_cons, hc, ih]
    · simp [List.filter_cons, hc, ih]

theorem rows_filterNe_nil (stackId : Nat) (drifts : List StackResourceDriftInfo) :
    ((drifts.map (driftResultRow stackId)).filter
      (fun r => !(r.stackId == stackId))) = [] := by
  induction drifts with
  | nil => rfl
  | cons d ds ih =>
    have hc : (!((driftResultRow stackId d).stackId == stackId)) = false := by
      simp [driftResultRow]
    simp only [List.map_cons, List.filter_cons, hc, ih]
    simp

theorem rows_filterEq_self (stackId : Nat) (drifts : List StackResourceDriftInfo) :
    ((drifts.map (driftResultRow stackId)).filter
      (fun r => r.stackId == stackId)) = drifts.map (driftResultRow stackId) := by
  induction drifts with
  | nil => rfl
  | cons d ds ih =>
    have hc : ((driftResultRow stackId d).stackId == stackId) = true := by
      simp [driftResultRow]
    simp only [List.map_cons, List.filter_cons, hc, ih]
    simp

theorem rows_keys (stackId : Nat) (drifts : List StackResourceDriftInfo) :
    ((drifts.map (driftResultRow stackId)).map (fun r => r.resourceLogicalId))
      = drifts.map (fun d => d.logicalResourceId) := by
  induction drifts with
  | nil => rfl
  | cons d ds ih =>
    simp only [List.map_cons, ih]
    rfl

/-- C5: reconciliation is idempotent — replacing the snapshot twice with the
same descriptor list leaves exactly the rows of a single replacement — and
the replaced rows carry pairwise-distinct (stackId, logicalResourceId) keys
whenever the remote descriptor list has distinct logical ids (which the
unique constraint of stack_drift_results assumes). -/
theorem c5_reconciliation_idempotent (results : List StackDriftResult)
    (stackId : Nat) (drifts : List StackResourceDriftInfo)
    (hnodup : (drifts.map (fun d => d.logicalResourceId)).Nodup) :
    replaceDriftResults (replaceDriftResults results stackId drifts) stackId drifts
        = replaceDriftResults results stackId drifts
      ∧ (((replaceDriftResults results stackId drifts).filter
            (fun r => r.stackId == stackId)).map
              (fun r => r.resourceLogicalId)).Nodup := by
  constructor
  · unfold replaceDriftResults
    rw [List.filter_append, filterNe_idem, rows_filterNe_nil]
    simp
  · unfold replaceDriftResults
    rw [List.filter_append, filterEq_of_filterNe, rows_filterEq_self]
    simp only [List.nil_append, rows_keys]
    exact hnodup

/-- C5 witness: the concrete two-descriptor replacement is idempotent and
key-unique. -/
theorem c5_reconciliation_idempotent_witness :
    replaceDriftResults
        (replaceDriftResults priorResults 10 [descModified, descDeleted]) 10
        [descModified, descDeleted]
      = replaceDriftResults priorResults 10 [descModified, descDeleted]
      ∧ (((replaceDriftResults priorResults 10 [descModified, descDeleted]).filter
            (fun r => r.stackId == 10)).map (fun r => r.resourceLogicalId)).Nodup :=
  c5_reconciliation_idempotent priorResults 10 [descModified, descDeleted] (by decide)

/-- C4 (amended): the reconciler's replacement is a deleteMany followed by
one insert per row with no enclosing transaction.  At every interruption
point k the store holds exactly the first k new rows for the stack (a
partial mix for 0 < k < length whenever old and new differ), rows of every
other stack are exactly the original ones at every point, and only the
completed sequence equals the full replacement. -/
theorem c4_sequential_replacement_prefix (results : List StackDriftResult)
    (stackId : Nat) (drifts : List StackResourceDriftInfo) (k : Nat) :
    ((replaceDriftResultsPrefix results stackId drifts k).filter
        (fun r => r.stackId == stackId))
        = (drifts.take k).map (driftResultRow stackId)
      ∧ ((replaceDriftResultsPrefix results stackId drifts k).filter
          (fun r => !(r.stackId == stackId)))
          = results.filter (fun r => !(r.stackId == stackId))
      ∧ replaceDriftResultsPrefix results stackId drifts drifts.length
          = replaceDriftResults results stackId drifts := by
  refine ⟨?_, ?_, ?_⟩
  · unfold replaceDriftResultsPrefix
    rw [List.filter_append, filterEq_of_filterNe, rows_filterEq_self]
    simp
  · unfold replaceDriftResultsPrefix
    rw [List.filter_append, filterNe_idem, rows_filterNe_nil]
    simp
  · unfold replaceDriftResultsPrefix replaceDriftResults
    rw [List.take_length]

/-- C10: for a user with at least one connected account grant, the account
selection of `getUserAwsCredentials` — shared by the stack-listing handler
and the trigger handler — succeeds and returns a connected account of that
user whose createdAt is no older than any of the user's other connected
accounts; and for every stackName the trigger appends a job for exactly
that account (the request body carries only stackName, so the choice is
independent of which account the named stack belongs to). -/
theorem c10_most_recent_connected_account (s : Store) (userId : String)
    (a : AwsAccount) (ha : a ∈ s.accounts) (hu : a.userId = userId)
    (hc : a.status = connectedStatus) :
    (getUserAwsCredentials s userId).isSome = true
      ∧ ∀ chosen, getUserAwsCredentials s userId = some chosen →
          chosen.userId = userId ∧ chosen.status = connectedStatus
            ∧ (∀ b ∈ s.accounts, b.userId = userId → b.status = connectedStatus →
                b.createdAt ≤ chosen.createdAt)
            ∧ ∀ stackName (jobId : Nat) did now s',
                triggerDrift s userId stackName jobId did now = some s' →
                s'.jobs = s.jobs ++ [newDriftJob chosen stackName jobId did now] := by
  have hafilter : a ∈ s.accounts.filter
      (fun x => x.userId == userId && x.status == connectedStatus) :=
    List.mem_filter.mpr ⟨ha, by simp [hu, hc]⟩
  have hasort : a ∈ connectedAccountsDesc s userId :=
    mem_sortByCreatedAtDesc.mpr hafilter
  cases hsort : connectedAccountsDesc s userId with
  | nil =>
    rw [hsort] at hasort
    cases hasort
  | cons c t =>
    constructor
    · unfold getUserAwsCredentials
      rw [hsort]
      rfl
    · intro chosen hchosen
      unfold getUserAwsCredentials at hchosen
      rw [hsort] at hchosen
      simp only [List.head?, Option.some.injEq] at hchosen
      subst hchosen
      have hcmem : c ∈ s.accounts.filter
          (fun x => x.userId == userId && x.status == connectedStatus) := by
        have hmm : c ∈ connectedAccountsDesc s userId := by
          rw [hsort]
          exact List.mem_cons_self _ _
        exact mem_sortByCreatedAtDesc.mp hmm
      have hcprops := (List.mem_filter.mp hcmem).2
      simp only [Bool.and_eq_true, beq_iff_eq] at hcprops
      refine ⟨hcprops.1, hcprops.2, ?_, ?_⟩
      · intro b hb hbu hbs
        have hbf : b ∈ s.accounts.filter
            (fun x => x.userId == userId && x.status == connectedStatus) :=
          List.mem_filter.mpr ⟨hb, by simp [hbu, hbs]⟩
        exact sort_head_max _ c t hsort b hbf
      · intro stackName jobId did now s' htrig
        obtain ⟨acct2, hcred2, hjobs, -, -⟩ :=
          triggerDrift_ok_parts s userId stackName jobId did now s' htrig
        have hac : acct2 = c := by
          unfold getUserAwsCredentials at hcred2
          rw [hsort] at hcred2
          simp only [List.head?, Option.some.injEq] at hcred2
          exact hcred2.symm
        rw [hac] at hjobs
        exact hjobs

/-- C10 witness: the user "u" with one connected account gets a successful
selection. -/
theorem c10_most_recent_connected_account_witness :
    (getUserAwsCredentials storeAcctOnly "u").isSome = true :=
  (c10_most_recent_connected_account storeAcctOnly "u" acctFixture
    (by decide) (by decide) (by decide)).1

/-- C1 (amended): the trigger handler neither rejects nor supersedes: every
successful trigger appends one more DETECTION_IN_PROGRESS job for the
selected account's (accountId, stackName, region) tuple, leaving any
already-outstanding jobs for that tuple in place, so the outstanding count
for the tuple grows by exactly one (the only uniqueness enforced is the
remote operation id). -/
theorem c1_trigger_appends_outstanding_job (s : Store) (userId stackName : String)
    (jobId : Nat) (did : String) (now : Nat) (s' : Store) (acct : AwsAccount)
    (hcred : getUserAwsCredentials s userId = some acct)
    (htrig : triggerDrift s userId stackName jobId did now = some s') :
    outstandingJobCount s' acct.accountId stackName (credentialsRegion acct)
      = outstandingJobCount s acct.accountId stackName (credentialsRegion acct) + 1 := by
  obtain ⟨acct2, hcred2, hjobs, -, -⟩ :=
    triggerDrift_ok_parts s userId stackName jobId did now s' htrig
  rw [hcred] at hcred2
  have hae : acct = acct2 := by injection hcred2
  subst hae
  unfold outstandingJobCount
  rw [hjobs, List.filter_append, List.length_append]
  have hone : (([newDriftJob acct stackName jobId did now]).filter (fun j =>
      j.awsAccountId == acct.accountId && j.stackName == stackName
        && j.region == credentialsRegion acct
        && j.status == JobStatus.detectionInProgress)).length = 1 := by
    simp [newDriftJob]
  rw [hone]

/-- C1 witness: the concrete trigger on the one-account store grows the
tuple's outstanding count from 0 to 1. -/
theorem c1_trigger_appends_outstanding_job_witness :
    outstandingJobCount storeAfterTrigger acctFixture.accountId "demo-stack"
        (credentialsRegion acctFixture)
      = outstandingJobCount storeAcctOnly acctFixture.accountId "demo-stack"
        (credentialsRegion acctFixture) + 1 :=
  c1_trigger_appends_outstanding_job storeAcctOnly "u" "demo-stack" 1 "d1" 1000
    storeAfterTrigger acctFixture (by decide) (by decide)

/-- C3 (amended): any exception thrown while processing a job — the assume
call or the status call throwing, transient or not — is caught by the
per-job handler, which marks the job DETECTION_FAILED with the error
message and a completedAt timestamp; a job remains IN_PROGRESS only when
the status call succeeds and reports DETECTION_IN_PROGRESS. -/
theorem c3_any_error_marks_job_failed (env : String → JobRemote) (now : Nat)
    (s : Store) (job : DriftDetectionJob) (acct : AwsAccount) (e : String)
    (hfind : jobById s job.id = some job)
    (hacct : findConnectedAccount s.accounts job.awsAccountId = some acct)
    (herr : (env job.driftDetectionId).assumeRole = Except.error e
      ∨ ((env job.driftDetectionId).assumeRole = Except.ok ()
          ∧ (env job.driftDetectionId).detectionStatus = Except.error e)) :
    jobById (processJob env now s job) job.id
      = some { job with
          status := .detectionFailed
          failureReason := some e
          completedAt := some now } := by
  have hexpand : processJob env now s job = markJobFailed s job.id e now := by
    unfold processJob processJobBody
    rcases herr with h1 | ⟨h1, h2⟩
    · simp only [hacct, h1]
    · simp only [hacct, h1, h2]
  rw [hexpand]
  unfold markJobFailed jobById
  exact find?_updateJob_self s.jobs job.id
    (fun j => { j with
      status := .detectionFailed
      failureReason := some e
      completedAt := some now })
    (fun j => rfl) job hfind

/-- C3 witness: the fixture job whose status call throws a transient network
timeout ends DETECTION_FAILED with the message recorded. -/
theorem c3_any_error_marks_job_failed_witness :
    jobById (processJob envTransientStatusError 86400000 storeWithJob jobFixture)
        jobFixture.id
      = some { jobFixture with
          status := .detectionFailed
          failureReason := some "Failed to get drift detection status: network timeout"
          completedAt := some 86400000 } :=
  c3_any_error_marks_job_failed envTransientStatusError 86400000 storeWithJob
    jobFixture acctFixture "Failed to get drift detection status: network timeout"
    (by decide) (by decide) (Or.inr ⟨rfl, rfl⟩)

/-- C2 (amended): when the remote reports COMPLETE with DRIFTED and the
per-resource detail fetch throws, the job ends DETECTION_COMPLETE with the
report's (null) failureReason — the fetch failure is never recorded as a
drift-detection failure — and the stored snapshot rows are untouched; but
the stack rows of the job's tuple have already been set to DRIFTED (the
update precedes the fetch), and the job leaves every future outstanding-job
scan, so the detail fetch is not retried. -/
theorem c2_detail_fetch_failure_frame (env : String → JobRemote) (now : Nat)
    (s : Store) (job : DriftDetectionJob) (acct : AwsAccount) (e : String)
    (hfind : jobById s job.id = some job)
    (hacct : findConnectedAccount s.accounts job.awsAccountId = some acct)
    (har : (env job.driftDetectionId).assumeRole = Except.ok ())
    (hds : (env job.driftDetectionId).detectionStatus
      = Except.ok { status := .detectionComplete, driftStatus := some .drifted,
                    failureReason := none })
    (hrd : (env job.driftDetectionId).resourceDrifts = Except.error e) :
    jobById (processJob env now s job) job.id
        = some { job with
            status := .detectionComplete
            failureReason := none
            completedAt := some now }
      ∧ (processJob env now s job).driftResults = s.driftResults
      ∧ (∀ now2 j, j ∈ pendingJobs (processJob env now s job) now2 → ¬ j.id = job.id)
      ∧ (∀ st ∈ (processJob env now s job).cloudFormationStacks,
          st.awsAccountId = job.awsAccountId → st.stackName = job.stackName →
          st.region = job.region → st.driftStatus = some .drifted) := by
  have hexpand : processJob env now s job
      = applyDriftStatusToStacks now
          (applyDriftResultToJob now s job
            { status := .detectionComplete, driftStatus := some .drifted,
              failureReason := none })
          job .drifted := by
    unfold processJob processJobBody
    simp only [hacct, har, hds, hrd, if_true]
  refine ⟨?_, ?_, ?_, ?_⟩
  · rw [hexpand]
    unfold applyDriftStatusToStacks applyDriftResultToJob jobById
    exact find?_updateJob_self s.jobs job.id
      (fun j => { j with
        status := .detectionComplete
        failureReason := none
        completedAt := some now })
      (fun j => rfl) job hfind
  · rw [hexpand]
    rfl
  · intro now2 j hj
    rw [hexpand] at hj
    have hjm : j ∈ updateJob s.jobs job.id (fun jj =>
        { jj with
          status := .detectionComplete
          failureReason := none
          completedAt := some now }) := (mem_pendingJobs.mp hj).1
    have hstat := (mem_pendingJobs.mp hj).2.1
    simp only [updateJob, List.mem_map] at hjm
    obtain ⟨jj, hjjmem, hjeq⟩ := hjm
    by_cases hcase : (jj.id == job.id) = true
    · rw [if_pos hcase] at hjeq
      rw [← hjeq] at hstat
      simp at hstat
    · rw [if_neg hcase] at hjeq
      intro hid
      rw [← hjeq] at hid
      exact hcase (by simp [hid])
  · intro st hst hsa hsn hsr
    rw [hexpand] at hst
    have hstm : st ∈ updateStacksForTuple s.cloudFormationStacks
        job.awsAccountId job.stackName job.region
        (fun x => { x with driftStatus := some .drifted, detectionTime := some now }) := hst
    simp only [updateStacksForTuple, List.mem_map] at hstm
    obtain ⟨x, hxmem, hxeq⟩ := hstm
    by_cases hcase : (x.awsAccountId == job.awsAccountId && x.stackName == job.stackName
        && x.region == job.region) = true
    · rw [if_pos hcase] at hxeq
      rw [← hxeq]
    · rw [if_neg hcase] at hxeq
      exfalso
      apply hcase
      rw [← hxeq] at hsa hsn hsr
      simp [hsa, hsn, hsr]

/-- C2 witness: the fixture tick (COMPLETE/DRIFTED report, failing detail
fetch) leaves the job COMPLETE with the report's failureReason and a
completedAt timestamp. -/
theorem c2_detail_fetch_failure_frame_witness :
    jobById (processJob envDetailFetchFails 86400000 storeWithJob jobFixture)
        jobFixture.id
      = some { jobFixture with
          status := .detectionComplete
          failureReason := none
          completedAt := some 86400000 } :=
  (c2_detail_fetch_failure_frame envDetailFetchFails 86400000 storeWithJob jobFixture
    acctFixture "Failed to get stack resource drifts"
    (by decide) (by decide) rfl rfl rfl).1

end CloudGuard
